import Mathlib

/-!
Shallow embedding of the wallpaper-changer rotation core
(src/src-tauri/src/main.rs) in Lean 4, together with theorems settling
the specification claims about it.

Paths are modelled as `String` (the code compares paths through
`to_string_lossy`, i.e. by their string representation), times of day as
seconds since midnight (`Nat`), and the tick loop's shared `AppState`
fields as an explicit `RotationState` record threaded through a pure
`tick` function.  Nondeterministic external inputs (the RNG draw, the
platform's current wallpaper query) are passed as explicit parameters.
-/

namespace WallpaperChanger

/-- Mirror of `struct AppConfig` (main.rs lines 31-57); paths as strings. -/
structure AppConfig where
  interval : Nat
  start_dt : Option String
  end_dt : Option String
  weekly : Option (List String)
  monthly : Option (List Nat)
  default_wallpaper_path : Option String
  file_targets : List String
  random : Bool
  window_width : Option Nat
  window_height : Option Nat
  window_minimized : Option Bool
deriving Repr, DecidableEq

/-- Mirror of `default_interval` (main.rs lines 59-61). -/
def default_interval : Nat := 60

/-- Mirror of `default_random` (main.rs lines 63-65). -/
def default_random : Bool := true

/-- Mirror of `impl Default for AppConfig` (main.rs lines 67-83). -/
def AppConfig.defaultConfig : AppConfig :=
  { interval := default_interval
    start_dt := none
    end_dt := none
    weekly := none
    monthly := none
    default_wallpaper_path := none
    file_targets := []
    random := default_random
    window_width := none
    window_height := none
    window_minimized := none }

/-- Weekday enumeration mirroring `chrono::Weekday` as used by the code. -/
inductive Weekday where
  | sun | mon | tue | wed | thu | fri | sat
deriving Repr, DecidableEq

/-- Mirror of `weekday_str_to_enum` (main.rs lines 142-153); Lean's
`String.toLower` lowercases exactly the ASCII range, like Rust's
`to_ascii_lowercase`. -/
def weekday_str_to_weekday (s : String) : Option Weekday :=
  match s.toLower with
  | "sun" => some .sun
  | "mon" => some .mon
  | "tue" => some .tue
  | "tues" => some .tue
  | "wed" => some .wed
  | "thu" => some .thu
  | "thur" => some .thu
  | "thurs" => some .thu
  | "fri" => some .fri
  | "sat" => some .sat
  | _ => none

/-- Value of a decimal digit character, `none` on a non-digit. -/
def charDigit (c : Char) : Option Nat :=
  if c.isDigit then some (c.toNat - 48) else none

/-- A 1- or 2-digit decimal number, as chrono's numeric `%H` / `%M`
items accept. -/
def parseNum2 (cs : List Char) : Option Nat :=
  match cs with
  | [c] => charDigit c
  | [c1, c2] =>
    match charDigit c1, charDigit c2 with
    | some d1, some d2 => some (d1 * 10 + d2)
    | _, _ => none
  | _ => none

/-- Split a character list at every colon. -/
def splitOnColon (cs : List Char) : List (List Char) :=
  match cs with
  | [] => [[]]
  | c :: rest =>
    let r := splitOnColon rest
    if c = ':' then [] :: r
    else
      match r with
      | [] => [[c]]
      | g :: gs => (c :: g) :: gs

/-- Mirror of `parse_hhmm` (main.rs lines 155-157): chrono
`NaiveTime::parse_from_str(s, "%H:%M")`, yielding seconds since
midnight; hour 0-23, minute 0-59, whole string consumed. -/
def parse_hhmm (s : String) : Option Nat :=
  match splitOnColon s.toList with
  | [hs, ms] =>
    match parseNum2 hs, parseNum2 ms with
    | some h, some m =>
      if h ≤ 23 && m ≤ 59 then some (h * 3600 + m * 60) else none
    | _, _ => none
  | _ => none

/-- The fields of `chrono::DateTime<Local>` that `should_run` consults:
weekday, day of month, and time of day in seconds since midnight. -/
structure LocalDateTime where
  weekday : Weekday
  day : Nat
  timeOfDay : Nat
deriving Repr, DecidableEq

/-- The weekly check of `should_run` (main.rs lines 160-165): `true`
when the weekly constraint is present and fails. -/
def weekly_blocks (now : LocalDateTime) (cfg : AppConfig) : Bool :=
  match cfg.weekly with
  | some weekly => !(weekly.any fun w => weekday_str_to_weekday w == some now.weekday)
  | none => false

/-- The monthly check of `should_run` (main.rs lines 167-171): `true`
when the monthly constraint is present and fails. -/
def monthly_blocks (now : LocalDateTime) (cfg : AppConfig) : Bool :=
  match cfg.monthly with
  | some monthly => !(monthly.any fun d => d == now.day)
  | none => false

/-- The start-time check of `should_run` (main.rs lines 175-181): `true`
when `start_dt` is present, parses, and `now`'s time of day is strictly
earlier. -/
def start_blocks (now : LocalDateTime) (cfg : AppConfig) : Bool :=
  match cfg.start_dt with
  | some start_str =>
    match parse_hhmm start_str with
    | some start_time => decide (now.timeOfDay < start_time)
    | none => false
  | none => false

/-- The end-time check of `should_run` (main.rs lines 183-189): `true`
when `end_dt` is present, parses, and `now`'s time of day is strictly
later. -/
def end_blocks (now : LocalDateTime) (cfg : AppConfig) : Bool :=
  match cfg.end_dt with
  | some end_str =>
    match parse_hhmm end_str with
    | some end_time => decide (now.timeOfDay > end_time)
    | none => false
  | none => false

/-- Mirror of `should_run` (main.rs lines 159-192): four early-return
checks in order (weekly, monthly, start, end), `true` if none fires. -/
def should_run (now : LocalDateTime) (cfg : AppConfig) : Bool :=
  if weekly_blocks now cfg then false
  else if monthly_blocks now cfg then false
  else if start_blocks now cfg then false
  else if end_blocks now cfg then false
  else true

/-- The rotation-relevant fields of `struct AppState` (main.rs lines
85-96): the active flag, the remembered last `random` setting, the
sequential cursor, and the last shown path. -/
structure RotationState where
  random_active : Bool
  last_random_enabled : Bool
  current_index : Option Nat
  last_shown : Option String
deriving Repr, DecidableEq

/-- One pass of the tick loop body (main.rs lines 558-637), as a pure
function.  Inputs: the state, the snapshotted `file_targets`,
`should_run_now`, `initial_wallpaper` and `random_flag`, plus the two
external sources of nondeterminism: `rngIndex` (the RNG draw of
`file_targets.choose`, taken modulo the length) and `currentWallpaper`
(the result of `get_current_wallpaper`).  Output: the new state and the
list of `set_wallpaper` calls made, in order. -/
def tick (st : RotationState) (file_targets : List String)
    (should_run_now : Bool) (initial_wallpaper : Option String)
    (random_flag : Bool) (rngIndex : Nat) (currentWallpaper : Option String) :
    RotationState × List String :=
  if file_targets.isEmpty then
    -- main.rs lines 561-573: restore if active, then clear index and last_shown
    let (active, calls) :=
      if st.random_active then
        (false, match initial_wallpaper with
                | some p => [p]
                | none => [])
      else (st.random_active, ([] : List String))
    ({ random_active := active
       last_random_enabled := st.last_random_enabled
       current_index := none
       last_shown := none }, calls)
  else
    if should_run_now then
      if random_flag then
        -- main.rs lines 585-593: random pick, remember it, clear the cursor
        let choice := file_targets.getD (rngIndex % file_targets.length) ""
        ({ random_active := true
           last_random_enabled := true
           current_index := none
           last_shown := some choice }, [choice])
      else
        -- main.rs lines 594-627: sequential mode
        let idx0 : Option Nat :=
          if st.last_random_enabled && st.current_index.isNone then
            match st.last_shown with
            | some last_path =>
              match file_targets.findIdx? (fun p => p == last_path) with
              | some pos => some ((pos + 1) % file_targets.length)
              | none => some 0
            | none =>
              match currentWallpaper with
              | some current =>
                match file_targets.findIdx? (fun p => p == current) with
                | some pos => some ((pos + 1) % file_targets.length)
                | none => some 0
              | none => some 0
          else st.current_index
        let idx1 : Option Nat := if idx0.isNone then some 0 else idx0
        match idx1 with
        | some i =>
          let path := file_targets.getD (i % file_targets.length) ""
          ({ random_active := true
             last_random_enabled := false
             current_index := some ((i + 1) % file_targets.length)
             last_shown := some path }, [path])
        | none =>
          -- unreachable: idx1 is always some
          ({ random_active := true
             last_random_enabled := false
             current_index := none
             last_shown := st.last_shown }, [])
    else
      -- main.rs lines 629-636: inactive branch, restore if active
      let (active, calls) :=
        if st.random_active then
          (false, match initial_wallpaper with
                  | some p => [p]
                  | none => [])
        else (st.random_active, ([] : List String))
      ({ st with random_active := active }, calls)

/-- A run of consecutive active sequential ticks (`should_run_now =
true`, `random_flag = false`), collecting the applied wallpapers. -/
def seqTicks (st : RotationState) (file_targets : List String)
    (initial_wallpaper : Option String) (currentWallpaper : Option String) :
    Nat → RotationState × List String
  | 0 => (st, [])
  | n + 1 =>
    let r1 := tick st file_targets true initial_wallpaper false 0 currentWallpaper
    let r2 := seqTicks r1.1 file_targets initial_wallpaper currentWallpaper n
    (r2.1, r1.2 ++ r2.2)

/-- The external inputs of one tick-loop cycle: the clock, the RNG draw
and the platform's current wallpaper. -/
structure TickEnv where
  now : LocalDateTime
  rngIndex : Nat
  currentWallpaper : Option String
deriving Repr, DecidableEq

/-- One full cycle of the spawned loop (main.rs lines 514-645): snapshot
the configuration (coercing a stored interval of 0 to 60, line 528),
evaluate `should_run` on a temporary config carrying the snapshotted
fields (lines 538-547), run the tick body, and report the interval the
cycle sleeps with. -/
def loopCycle (cfg : AppConfig) (initial_wallpaper : Option String)
    (st : RotationState) (env : TickEnv) : RotationState × List String × Nat :=
  let interval_secs := if cfg.interval == 0 then 60 else cfg.interval
  let tmp_cfg : AppConfig :=
    { AppConfig.defaultConfig with
      file_targets := cfg.file_targets
      start_dt := cfg.start_dt
      end_dt := cfg.end_dt
      weekly := cfg.weekly
      monthly := cfg.monthly
      interval := interval_secs }
  let run := should_run env.now tmp_cfg
  let r := tick st cfg.file_targets run initial_wallpaper cfg.random
    env.rngIndex env.currentWallpaper
  (r.1, r.2, interval_secs)

/-- A run of loop cycles; each cycle reads the configuration snapshot
current at that cycle (the first component of its pair), so
configuration changes between wakes are reflected.  Returns the final
state and the interval used by each cycle. -/
def runLoop (initial_wallpaper : Option String) :
    RotationState → List (AppConfig × TickEnv) → RotationState × List Nat
  | st, [] => (st, [])
  | st, c :: cs =>
    let r := loopCycle c.1 initial_wallpaper st c.2
    let rest := runLoop initial_wallpaper r.1 cs
    (rest.1, r.2.2 :: rest.2)

/-- The target-list update of `add_file_targets` (main.rs lines
324-329): each collected file is appended unless an equal path is
already present (checked against the growing list, so duplicates within
`new_files` are suppressed too).  `file_targets` is the list read from
the persisted config; `new_files` is the expansion of the requested
paths by `collect_images_recursively`, as strings.  The function's
result is both the stored list and the returned list (lines 332-347
store `cfg.file_targets` and return its string form, which under the
string model of paths is the same list). -/
def add_file_targets (file_targets : List String) (new_files : List String) :
    List String :=
  new_files.foldl
    (fun acc f => if acc.any (fun x => x == f) then acc else acc ++ [f])
    file_targets

/-- The target-list update of `remove_file_target` (main.rs line 366):
retain every path whose string form differs from `path`. -/
def remove_file_target (path : String) (file_targets : List String) :
    List String :=
  file_targets.filter (fun p => !(p == path))

/-- The merge step of `save_config` (main.rs lines 251-260): start from
the argument; when its `file_targets` is empty, the config file exists,
and it reads and parses to a config with non-empty `file_targets`, keep
those targets.  `config_exists` models `config_path.exists()`;
`existing` is `some` exactly when both `read_to_string` and
`serde_json::from_str` succeed. -/
def merge_file_targets (config : AppConfig) (config_exists : Bool)
    (existing : Option AppConfig) : AppConfig :=
  if config.file_targets.isEmpty && config_exists then
    match existing with
    | some existing_cfg =>
      if !existing_cfg.file_targets.isEmpty then
        { config with file_targets := existing_cfg.file_targets }
      else config
    | none => config
  else config

/-- The filesystem outcomes `save_config` can encounter, as flags:
whether the exe directory is available (lines 247-248), whether the
config file exists and what it reads/parses to (lines 252-254), whether
serialization succeeds (line 262) and whether the write succeeds
(line 264). -/
structure SaveWorld where
  exe_dir_ok : Bool
  config_exists : Bool
  existing : Option AppConfig
  serialize_ok : Bool
  write_ok : Bool
deriving Repr, DecidableEq

/-- State visible to `save_config`: the shared in-memory config and
`last_random_enabled` (lines 266-273), whether the interrupt was fired
during the call (line 275), and the persisted file content. -/
structure SharedState where
  config : AppConfig
  last_random_enabled : Bool
  notified : Bool
  file : Option AppConfig
deriving Repr, DecidableEq

/-- Mirror of `save_config` (main.rs lines 245-278).  The `?` early
returns leave the state as it was; on success the merged config is
written to the file, copied into the shared state together with its
`random` flag, and the interrupt is fired last.  Returns the state after
the call and `some` error message on failure. -/
def save_config (w : SaveWorld) (st : SharedState) (config : AppConfig) :
    SharedState × Option String :=
  if !w.exe_dir_ok then (st, some "failed to get exe dir")
  else
    let merged := merge_file_targets config w.config_exists w.existing
    if !w.serialize_ok then (st, some "serialize error")
    else if !w.write_ok then (st, some "write error")
    else
      ({ config := merged
         last_random_enabled := merged.random
         notified := true
         file := some merged }, none)

/-! ### Helper lemmas about `tick` -/

/-- On an empty target list the tick clears the cursor and `last_shown`
unconditionally, drops the active flag, and restores the initial
wallpaper exactly when rotation was active. -/
theorem tick_empty_eq (st : RotationState) (r : Bool) (iw : Option String)
    (rf : Bool) (rng : Nat) (cw : Option String) :
    tick st [] r iw rf rng cw =
      ({ random_active := false
         last_random_enabled := st.last_random_enabled
         current_index := none
         last_shown := none },
       if st.random_active then
         (match iw with
          | some p => [p]
          | none => [])
       else []) := by
  cases h : st.random_active <;> simp [tick, h]

/-- On a non-empty target list with `should_run_now = false` the tick
only drops the active flag (restoring the initial wallpaper when it was
set); every other field is untouched. -/
theorem tick_inactive_eq (st : RotationState) (t : String) (ts : List String)
    (iw : Option String) (rf : Bool) (rng : Nat) (cw : Option String) :
    tick st (t :: ts) false iw rf rng cw =
      ({ st with random_active := false },
       if st.random_active then
         (match iw with
          | some p => [p]
          | none => [])
       else []) := by
  cases h : st.random_active <;> simp [tick, h]

/-- An active sequential tick from a set cursor `i`: it applies the
target at `i % length`, records it as last shown, and advances the
cursor to `(i + 1) % length`. -/
theorem tick_seq_step (st : RotationState) (t : String) (ts : List String)
    (iw cw : Option String) (rng : Nat) (i : Nat)
    (h : st.current_index = some i) :
    tick st (t :: ts) true iw false rng cw =
      ({ random_active := true
         last_random_enabled := false
         current_index := some ((i + 1) % (t :: ts).length)
         last_shown := some ((t :: ts).getD (i % (t :: ts).length) "") },
       [(t :: ts).getD (i % (t :: ts).length) ""]) := by
  simp [tick, h]

/-- A run of `k` active sequential ticks starting from cursor `i`
(`i < length`, `i + k ≤ length`) applies the targets
`drop i |>.take k` in order and leaves the cursor at
`(i + k) % length`. -/
theorem seqTicks_drop_take (t : String) (ts : List String) (iw cw : Option String) :
    ∀ (k : Nat) (st : RotationState) (i : Nat), st.current_index = some i →
      i < (t :: ts).length → i + k ≤ (t :: ts).length →
      (seqTicks st (t :: ts) iw cw k).2 = ((t :: ts).drop i).take k ∧
      (seqTicks st (t :: ts) iw cw k).1.current_index =
        some ((i + k) % (t :: ts).length) := by
  intro k
  induction k with
  | zero =>
    intro st i hci hlt _
    refine ⟨by simp [seqTicks], ?_⟩
    have hlt2 : i < ts.length + 1 := by simpa using hlt
    simp [seqTicks, hci, Nat.mod_eq_of_lt hlt2]
  | succ k ih =>
    intro st i hci hlt hle
    have hstep := tick_seq_step st t ts iw cw 0 i hci
    have hi : i % (t :: ts).length = i := Nat.mod_eq_of_lt hlt
    have hgetD : (t :: ts).getD (i % (t :: ts).length) "" = (t :: ts).get ⟨i, hlt⟩ := by
      rw [hi]
      simp [List.getD_eq_getElem?_getD, List.getElem?_eq_getElem hlt]
    have hdrop : (t :: ts).drop i = (t :: ts).get ⟨i, hlt⟩ :: (t :: ts).drop (i + 1) := by
      simpa using List.drop_eq_getElem_cons hlt
    rcases Nat.lt_or_ge (i + 1) (t :: ts).length with hcase | hcase
    · have hmod : (i + 1) % (t :: ts).length = i + 1 := Nat.mod_eq_of_lt hcase
      obtain ⟨ihc, ihi⟩ := ih
        { random_active := true
          last_random_enabled := false
          current_index := some ((i + 1) % (t :: ts).length)
          last_shown := some ((t :: ts).getD (i % (t :: ts).length) "") }
        (i + 1) (by simpa using hmod) hcase (by omega)
      constructor
      · simp only [seqTicks, hstep]
        rw [ihc, hdrop, hgetD]
        simp
      · simp only [seqTicks, hstep]
        rw [ihi]
        have : i + 1 + k = i + (k + 1) := by omega
        rw [this]
    · have hk : k = 0 := by omega
      subst hk
      constructor
      · simp only [seqTicks, hstep]
        rw [hdrop, hgetD]
        simp
      · simp only [seqTicks, hstep]

/-- Lemma for C8: removing every element of `R` from a list `L` whose
elements all occur in `R` leaves the empty list. -/
theorem foldl_remove_all (R : List String) :
    ∀ L : List String, (∀ x ∈ L, x ∈ R) →
      R.foldl (fun s p => remove_file_target p s) L = [] := by
  induction R with
  | nil =>
    intro L h
    have : L = [] := by
      cases L with
      | nil => rfl
      | cons a l => exact absurd (h a (by simp)) (by simp)
    simp [this]
  | cons r R ih =>
    intro L h
    simp only [List.foldl_cons]
    apply ih
    intro x hx
    rw [remove_file_target] at hx
    obtain ⟨hxL, hne⟩ := List.mem_filter.mp hx
    have hxR := h x hxL
    simp only [Bool.not_eq_true', beq_eq_false_iff_ne, ne_eq] at hne
    rcases List.mem_cons.mp hxR with h1 | h2
    · exact absurd h1 hne
    · exact h2

/-- A run of consecutive inactive ticks (`should_run_now = false`) over
a fixed target list. -/
def inactiveTicks (st : RotationState) (file_targets : List String)
    (iw cw : Option String) : Nat → RotationState
  | 0 => st
  | n + 1 =>
    inactiveTicks (tick st file_targets false iw false 0 cw).1
      file_targets iw cw n

/-- Inactive ticks over a non-empty target list never move the
sequential cursor. -/
theorem inactiveTicks_current_index (t : String) (ts : List String)
    (iw cw : Option String) :
    ∀ (n : Nat) (st : RotationState),
      (inactiveTicks st (t :: ts) iw cw n).current_index =
        st.current_index := by
  intro n
  induction n with
  | zero => intro st; rfl
  | succ n ih =>
    intro st
    show (inactiveTicks (tick st (t :: ts) false iw false 0 cw).1
      (t :: ts) iw cw n).current_index = st.current_index
    rw [ih, tick_inactive_eq]

/-! ### Claim theorems -/

/-- Claim C1: for every non-empty target list, in sequential mode with
the cursor starting at 0, a run of `len(targets)` consecutive active
ticks applies each target exactly once in list order (the list of
applied wallpapers is exactly `targets`), the cursor returns to 0 so the
cycle repeats, an inactive tick leaves the cursor (and last shown path)
unchanged, and the order resumes from the saved cursor: `k` active
ticks, then any number of inactive ticks, then the remaining
`len - k` active ticks together still apply exactly `targets`. -/
theorem C1_sequential_cycle (t : String) (ts : List String)
    (st : RotationState) (iw cw : Option String)
    (h : st.current_index = some 0) :
    (seqTicks st (t :: ts) iw cw (t :: ts).length).2 = t :: ts ∧
    (seqTicks st (t :: ts) iw cw (t :: ts).length).1.current_index = some 0 ∧
    (∀ (st2 : RotationState) (iw2 cw2 : Option String) (rf : Bool) (rng : Nat),
      (tick st2 (t :: ts) false iw2 rf rng cw2).1.current_index =
        st2.current_index ∧
      (tick st2 (t :: ts) false iw2 rf rng cw2).1.last_shown =
        st2.last_shown) ∧
    (∀ (k m : Nat), k ≤ (t :: ts).length →
      (seqTicks st (t :: ts) iw cw k).2 ++
        (seqTicks
          (inactiveTicks (seqTicks st (t :: ts) iw cw k).1 (t :: ts) iw cw m)
          (t :: ts) iw cw ((t :: ts).length - k)).2 = t :: ts) := by
  obtain ⟨hc, hi⟩ := seqTicks_drop_take t ts iw cw (t :: ts).length st 0 h
    (by simp) (by simp)
  refine ⟨?_, ?_, ?_, ?_⟩
  · simpa using hc
  · simpa using hi
  · intro st2 iw2 cw2 rf rng
    rw [tick_inactive_eq]
    exact ⟨rfl, rfl⟩
  · intro k m hk
    obtain ⟨hc1, hi1⟩ := seqTicks_drop_take t ts iw cw k st 0 h (by simp)
      (by simpa using hk)
    rcases Nat.lt_or_ge k (t :: ts).length with hlt | hge
    · have hcur : (inactiveTicks (seqTicks st (t :: ts) iw cw k).1
          (t :: ts) iw cw m).current_index = some k := by
        rw [inactiveTicks_current_index, hi1, Nat.zero_add,
          Nat.mod_eq_of_lt hlt]
      obtain ⟨hc2, _⟩ := seqTicks_drop_take t ts iw cw ((t :: ts).length - k)
        _ k hcur hlt (by omega)
      rw [hc1, hc2]
      have hlen : ((t :: ts).drop k).length = (t :: ts).length - k := by
        simp
      rw [List.take_of_length_le (le_of_eq hlen), List.drop_zero]
      exact List.take_append_drop k (t :: ts)
    · have hk0 : k = (t :: ts).length := le_antisymm hk hge
      subst hk0
      simp only [Nat.sub_self, seqTicks, List.append_nil]
      simpa using hc1

/-- Witness for C1 at `targets = ["a", "b"]`, cursor 0: the two active
ticks apply `"a"` then `"b"`, and an inactive tick preserves a cursor of
1. -/
theorem C1_witness :
    (seqTicks ⟨false, false, some 0, none⟩ ["a", "b"] none none 2).2 =
      ["a", "b"] ∧
    (tick ⟨true, false, some 1, some "a"⟩ ["a", "b"] false none false 0
      none).1.current_index = some 1 :=
  ⟨(C1_sequential_cycle "a" ["b"] ⟨false, false, some 0, none⟩ none none rfl).1,
   ((C1_sequential_cycle "a" ["b"] ⟨false, false, some 0, none⟩ none none
      rfl).2.2.1 ⟨true, false, some 1, some "a"⟩ none none false 0).1⟩

/-- Claim C4 counterexample: with the target list empty and rotation NOT
active (`random_active = false`), a cursor of `some 1` is still cleared
by the tick (main.rs lines 569-573 run unconditionally), so the tick is
not a no-op as the claim states. -/
theorem C4_counterexample :
    ¬ ((tick ⟨false, false, some 1, some "a"⟩ [] true none false 0
        none).1.current_index = some 1 ∧
       (tick ⟨false, false, some 1, some "a"⟩ [] true none false 0
        none).1.last_shown = some "a") := by
  decide

/-- Claim C4 as amended: on every tick with an empty target list, the
original background is restored exactly when rotation was active, the
active flag is dropped, and the sequential cursor and `last_shown` are
cleared unconditionally — whether or not rotation was active. -/
theorem C4_empty_targets (st : RotationState) (r : Bool) (iw : Option String)
    (rf : Bool) (rng : Nat) (cw : Option String) :
    (tick st [] r iw rf rng cw).1 =
      { random_active := false
        last_random_enabled := st.last_random_enabled
        current_index := none
        last_shown := none } ∧
    (tick st [] r iw rf rng cw).2 =
      (if st.random_active then
        (match iw with
         | some p => [p]
         | none => [])
       else []) :=
  ⟨by rw [tick_empty_eq], by rw [tick_empty_eq]⟩

/-- Claim C5: on every tick with targets present and `should_run` false,
the new state is the old one with only `random_active` forced to
`false` (so cursor, `last_shown` and `last_random_enabled` are
untouched), and the original background is restored exactly when
rotation was active. -/
theorem C5_inactive_branch (t : String) (ts : List String)
    (st : RotationState) (iw : Option String) (rf : Bool) (rng : Nat)
    (cw : Option String) :
    (tick st (t :: ts) false iw rf rng cw).1 =
      { st with random_active := false } ∧
    (tick st (t :: ts) false iw rf rng cw).2 =
      (if st.random_active then
        (match iw with
         | some p => [p]
         | none => [])
       else []) :=
  ⟨by rw [tick_inactive_eq], by rw [tick_inactive_eq]⟩

/-- Claim C6: on an active sequential tick over a non-empty target list,
whatever value `i` the stored cursor holds (including stale values saved
when the list was longer), the index actually used is `i % length`,
which is always in bounds, and the applied path is a member of the
current target list — the out-of-range branch is unreachable. -/
theorem C6_index_in_bounds (t : String) (ts : List String)
    (st : RotationState) (iw cw : Option String) (rng : Nat) (i : Nat)
    (h : st.current_index = some i) :
    i % (t :: ts).length < (t :: ts).length ∧
    (tick st (t :: ts) true iw false rng cw).2 =
      [(t :: ts).getD (i % (t :: ts).length) ""] ∧
    (t :: ts).getD (i % (t :: ts).length) "" ∈ t :: ts := by
  have hmod : i % (t :: ts).length < (t :: ts).length :=
    Nat.mod_lt _ (by simp)
  refine ⟨hmod, ?_, ?_⟩
  · rw [tick_seq_step st t ts iw cw rng i h]
  · have hg : (t :: ts).getD (i % (t :: ts).length) "" =
        (t :: ts).get ⟨i % (t :: ts).length, hmod⟩ := by
      have hmod2 : i % (ts.length + 1) < (t :: ts).length := by simpa using hmod
      simp [List.getD_eq_getElem?_getD, List.getElem?_eq_getElem hmod2]
    rw [hg]
    exact List.get_mem _ _ _

/-- Witness for C6: a stale cursor of 5 over the two-element list
`["a", "b"]` reads index `5 % 2 = 1` and applies `"b"`. -/
theorem C6_witness :
    5 % (["a", "b"] : List String).length < (["a", "b"] : List String).length ∧
    (tick ⟨false, false, some 5, none⟩ ["a", "b"] true none false 0 none).2 =
      [(["a", "b"] : List String).getD (5 % (["a", "b"] : List String).length) ""] ∧
    (["a", "b"] : List String).getD (5 % (["a", "b"] : List String).length) "" ∈
      (["a", "b"] : List String) :=
  C6_index_in_bounds "a" ["b"] ⟨false, false, some 5, none⟩ none none 0 5 rfl

/-- Claim C2: on the first sequential active tick after random mode
(`last_random_enabled = true`, cursor unset), the applied target is at
index `(index_of(lastShown) + 1) % len` when `lastShown` is set and
found in the targets; when `lastShown` is unset, the platform's current
background is used the same way; when the relevant path is not found (or
the platform query fails), the tick starts at index 0. -/
theorem C2_random_to_sequential (t : String) (ts : List String)
    (st : RotationState) (iw : Option String) (rng : Nat)
    (cw : Option String) (hlr : st.last_random_enabled = true)
    (hci : st.current_index = none) :
    (∀ p pos, st.last_shown = some p →
      (t :: ts).findIdx? (fun q => q == p) = some pos →
      (tick st (t :: ts) true iw false rng cw).2 =
        [(t :: ts).getD ((pos + 1) % (t :: ts).length) ""]) ∧
    (∀ p, st.last_shown = some p →
      (t :: ts).findIdx? (fun q => q == p) = none →
      (tick st (t :: ts) true iw false rng cw).2 =
        [(t :: ts).getD 0 ""]) ∧
    (∀ c pos, st.last_shown = none → cw = some c →
      (t :: ts).findIdx? (fun q => q == c) = some pos →
      (tick st (t :: ts) true iw false rng cw).2 =
        [(t :: ts).getD ((pos + 1) % (t :: ts).length) ""]) ∧
    (∀ c, st.last_shown = none → cw = some c →
      (t :: ts).findIdx? (fun q => q == c) = none →
      (tick st (t :: ts) true iw false rng cw).2 =
        [(t :: ts).getD 0 ""]) ∧
    (st.last_shown = none → cw = none →
      (tick st (t :: ts) true iw false rng cw).2 =
        [(t :: ts).getD 0 ""]) := by
  refine ⟨?_, ?_, ?_, ?_, ?_⟩
  · intro p pos hp hfind
    simp [tick, hlr, hci, hp, hfind]
  · intro p hp hfind
    simp [tick, hlr, hci, hp, hfind]
  · intro c pos hp hcw hfind
    simp [tick, hlr, hci, hp, hcw, hfind]
  · intro c hp hcw hfind
    simp [tick, hlr, hci, hp, hcw, hfind]
  · intro hp hcw
    simp [tick, hlr, hci, hp, hcw]

/-- Witness for C2: with `lastShown = "b"` at index 1 of
`["a", "b", "c"]`, the first sequential tick after random mode applies
the target at index `(1 + 1) % 3 = 2`. -/
theorem C2_witness :
    (tick ⟨false, true, none, some "b"⟩ ["a", "b", "c"] true none false 0
      none).2 =
      [(["a", "b", "c"] : List String).getD
        ((1 + 1) % (["a", "b", "c"] : List String).length) ""] :=
  (C2_random_to_sequential "a" ["b", "c"] ⟨false, true, none, some "b"⟩
    none 0 none rfl rfl).1 "b" 1 rfl (by decide)

/-- Claim C3: `should_run` is false exactly when one of the four
constraints fails (they are checked in the order weekly, monthly, start,
end, as the definition of `should_run` shows); an unparseable start or
end string is skipped as if absent; with no constraints present it
returns true; and the time-of-day bounds are inclusive: with only
`startTime = "09:00"` it is false at 08:59 and true at 09:00 and
09:01. -/
theorem C3_should_run_characterization :
    (∀ (now : LocalDateTime) (cfg : AppConfig),
      should_run now cfg = false ↔
        (weekly_blocks now cfg = true ∨ monthly_blocks now cfg = true ∨
         start_blocks now cfg = true ∨ end_blocks now cfg = true)) ∧
    (∀ (now : LocalDateTime) (cfg : AppConfig) (s : String),
      cfg.start_dt = some s → parse_hhmm s = none →
      should_run now cfg = should_run now { cfg with start_dt := none }) ∧
    (∀ (now : LocalDateTime) (cfg : AppConfig) (s : String),
      cfg.end_dt = some s → parse_hhmm s = none →
      should_run now cfg = should_run now { cfg with end_dt := none }) ∧
    (∀ (now : LocalDateTime) (cfg : AppConfig),
      cfg.weekly = none → cfg.monthly = none → cfg.start_dt = none →
      cfg.end_dt = none → should_run now cfg = true) ∧
    (∀ (wd : Weekday) (d : Nat),
      should_run ⟨wd, d, 8 * 3600 + 59 * 60⟩
        { AppConfig.defaultConfig with start_dt := some "09:00" } = false ∧
      should_run ⟨wd, d, 9 * 3600⟩
        { AppConfig.defaultConfig with start_dt := some "09:00" } = true ∧
      should_run ⟨wd, d, 9 * 3600 + 60⟩
        { AppConfig.defaultConfig with start_dt := some "09:00" } = true) := by
  refine ⟨?_, ?_, ?_, ?_, ?_⟩
  · intro now cfg
    by_cases h1 : weekly_blocks now cfg <;>
      by_cases h2 : monthly_blocks now cfg <;>
        by_cases h3 : start_blocks now cfg <;>
          by_cases h4 : end_blocks now cfg <;>
            simp [should_run, h1, h2, h3, h4]
  · intro now cfg s hs hp
    simp [should_run, weekly_blocks, monthly_blocks, start_blocks,
      end_blocks, hs, hp]
  · intro now cfg s hs hp
    simp [should_run, weekly_blocks, monthly_blocks, start_blocks,
      end_blocks, hs, hp]
  · intro now cfg h1 h2 h3 h4
    simp [should_run, weekly_blocks, monthly_blocks, start_blocks,
      end_blocks, h1, h2, h3, h4]
  · intro wd d
    refine ⟨?_, ?_, ?_⟩ <;>
      simp [should_run, weekly_blocks, monthly_blocks, start_blocks,
        end_blocks, AppConfig.defaultConfig, parse_hhmm, splitOnColon,
        parseNum2, charDigit]

/-- Witness for C3: the unparseable start string `"oops"` is skipped
(the configuration behaves as if `start_dt` were absent), and the
09:00 boundary examples at a concrete weekday and day. -/
theorem C3_witness :
    (should_run ⟨Weekday.mon, 5, 10⟩
        { AppConfig.defaultConfig with start_dt := some "oops" } =
      should_run ⟨Weekday.mon, 5, 10⟩
        { AppConfig.defaultConfig with start_dt := none }) ∧
    (should_run ⟨Weekday.mon, 5, 8 * 3600 + 59 * 60⟩
        { AppConfig.defaultConfig with start_dt := some "09:00" } = false ∧
     should_run ⟨Weekday.mon, 5, 9 * 3600⟩
        { AppConfig.defaultConfig with start_dt := some "09:00" } = true ∧
     should_run ⟨Weekday.mon, 5, 9 * 3600 + 60⟩
        { AppConfig.defaultConfig with start_dt := some "09:00" } = true) :=
  ⟨C3_should_run_characterization.2.1 ⟨Weekday.mon, 5, 10⟩
      { AppConfig.defaultConfig with start_dt := some "oops" } "oops" rfl
      (by decide),
   C3_should_run_characterization.2.2.2.2 Weekday.mon 5⟩

/-- Claim C7: the interval each cycle sleeps with is computed from the
configuration snapshot current at that cycle, with a stored interval of
0 replaced by 60 at each read: over any run, the list of intervals used
is exactly the per-cycle coercion of the stored values, so a stored 0 is
read back as 60 on every cycle, not only once at load. -/
theorem C7_interval_coerced_each_cycle (iw : Option String)
    (st : RotationState) (cycles : List (AppConfig × TickEnv)) :
    (runLoop iw st cycles).2 =
      cycles.map (fun c => if c.1.interval = 0 then 60 else c.1.interval) := by
  induction cycles generalizing st with
  | nil => simp [runLoop]
  | cons c cs ih =>
    simp only [runLoop, List.map_cons]
    rw [ih]
    by_cases h : c.1.interval = 0 <;> simp [loopCycle, h]

/-- Claim C8: adding any collection of files and then removing every
path the add returned leaves the stored target list empty — the
returned list is exactly the stored list after the add, and removal
filters by string equality on the same representation. -/
theorem C8_add_remove_round_trip (file_targets new_files : List String) :
    (add_file_targets file_targets new_files).foldl
      (fun s p => remove_file_target p s)
      (add_file_targets file_targets new_files) = [] :=
  foldl_remove_all (add_file_targets file_targets new_files)
    (add_file_targets file_targets new_files) (fun _ hx => hx)

/-- Claim C9: `save_config` keeps the previously persisted
`file_targets` exactly when the argument's list is empty, the config
file exists, and it reads and parses to a config with a non-empty list;
in every other case the argument's `file_targets` is stored as given;
every other field always comes from the argument; and on the success
path the merged config is what is written to the file and placed in the
shared state. -/
theorem C9_save_config_keeps_targets :
    (∀ (config : AppConfig) (ce : Bool) (ex : AppConfig),
      merge_file_targets config ce (some ex) =
        (if config.file_targets = [] ∧ ce = true ∧ ex.file_targets ≠ [] then
          { config with file_targets := ex.file_targets }
         else config)) ∧
    (∀ (config : AppConfig) (ce : Bool),
      merge_file_targets config ce none = config) ∧
    (∀ (config : AppConfig) (ce : Bool) (ex : Option AppConfig),
      (merge_file_targets config ce ex).interval = config.interval ∧
      (merge_file_targets config ce ex).start_dt = config.start_dt ∧
      (merge_file_targets config ce ex).end_dt = config.end_dt ∧
      (merge_file_targets config ce ex).weekly = config.weekly ∧
      (merge_file_targets config ce ex).monthly = config.monthly ∧
      (merge_file_targets config ce ex).default_wallpaper_path =
        config.default_wallpaper_path ∧
      (merge_file_targets config ce ex).random = config.random ∧
      (merge_file_targets config ce ex).window_width = config.window_width ∧
      (merge_file_targets config ce ex).window_height = config.window_height ∧
      (merge_file_targets config ce ex).window_minimized =
        config.window_minimized) ∧
    (∀ (w : SaveWorld) (st : SharedState) (config : AppConfig),
      w.exe_dir_ok = true → w.serialize_ok = true → w.write_ok = true →
      save_config w st config =
        ({ config := merge_file_targets config w.config_exists w.existing
           last_random_enabled :=
             (merge_file_targets config w.config_exists w.existing).random
           notified := true
           file :=
             some (merge_file_targets config w.config_exists w.existing) },
         none)) := by
  refine ⟨?_, ?_, ?_, ?_⟩
  · intro config ce ex
    rcases hft : config.file_targets with _ | ⟨a, l⟩ <;>
      rcases hex : ex.file_targets with _ | ⟨b, m⟩ <;>
        cases ce <;>
          simp [merge_file_targets, hft, hex]
  · intro config ce
    cases ce <;> simp [merge_file_targets]
  · intro config ce ex
    rcases ex with _ | ex
    · cases ce <;> simp [merge_file_targets]
    · rcases hex : ex.file_targets with _ | ⟨b, m⟩ <;>
        rcases hft : config.file_targets with _ | ⟨a, l⟩ <;>
          cases ce <;>
            simp [merge_file_targets, hft, hex]
  · intro w st config h1 h2 h3
    simp [save_config, h1, h2, h3]

/-- Witness for C9: saving a config with empty targets while the file
holds `["x"]` keeps `["x"]` in the stored file and shared state, and the
`random` flag of the merged config is the argument's. -/
theorem C9_witness :
    save_config
      ⟨true, true, some { AppConfig.defaultConfig with file_targets := ["x"] },
        true, true⟩
      ⟨AppConfig.defaultConfig, false, false, none⟩ AppConfig.defaultConfig =
      ({ config := merge_file_targets AppConfig.defaultConfig true
           (some { AppConfig.defaultConfig with file_targets := ["x"] })
         last_random_enabled :=
           (merge_file_targets AppConfig.defaultConfig true
             (some { AppConfig.defaultConfig with file_targets := ["x"] })).random
         notified := true
         file :=
           some (merge_file_targets AppConfig.defaultConfig true
             (some { AppConfig.defaultConfig with file_targets := ["x"] })) },
       none) :=
  C9_save_config_keeps_targets.2.2.2
    ⟨true, true, some { AppConfig.defaultConfig with file_targets := ["x"] },
      true, true⟩
    ⟨AppConfig.defaultConfig, false, false, none⟩ AppConfig.defaultConfig
    rfl rfl rfl

/-- Claim C10: when `save_config` returns an error (exe directory
unavailable, serialization failure, or write failure — exactly the three
failure flags), the shared state is returned unchanged: the in-memory
config, the remembered `last_random_enabled` and the notified flag are
as before, and no file write is recorded; the state is updated and the
interrupt fired only on the success path. -/
theorem C10_save_config_error_no_effect (w : SaveWorld) (st : SharedState)
    (config : AppConfig) :
    ((save_config w st config).2.isSome → (save_config w st config).1 = st) ∧
    ((save_config w st config).2 = none ↔
      (w.exe_dir_ok = true ∧ w.serialize_ok = true ∧ w.write_ok = true)) ∧
    ((save_config w st config).2 = none →
      (save_config w st config).1.notified = true ∧
      (save_config w st config).1.config =
        merge_file_targets config w.config_exists w.existing ∧
      (save_config w st config).1.last_random_enabled =
        (merge_file_targets config w.config_exists w.existing).random ∧
      (save_config w st config).1.file =
        some (merge_file_targets config w.config_exists w.existing)) := by
  rcases w with ⟨e, ce, ex, s, wr⟩
  cases e <;> cases s <;> cases wr <;>
    simp [save_config]

/-- Witness for C10: a failing write leaves a concrete shared state
exactly as it was. -/
theorem C10_witness :
    (save_config ⟨true, false, none, true, false⟩
      ⟨AppConfig.defaultConfig, true, false, none⟩
      AppConfig.defaultConfig).1 =
      ⟨AppConfig.defaultConfig, true, false, none⟩ :=
  (C10_save_config_error_no_effect ⟨true, false, none, true, false⟩
    ⟨AppConfig.defaultConfig, true, false, none⟩
    AppConfig.defaultConfig).1 (by decide)

end WallpaperChanger
